import Mathlib

/-!
Verification of the session-authentication gateway in
`descope_auth_test.py` (Flask backend: Descope SSO callback, first-party
session cookie, protected endpoint, CORS preflight handler).

The embedding is shallow: time is `Nat` (seconds), a PyJWT token is its
payload together with the key it was signed with (or a malformed blob),
HTTP responses are records of status, headers and body fields, and the
`users` PostgreSQL table is a list of rows.  External effects (the
Descope SDK verdict, success or failure of the database transaction) are
explicit parameters.
-/

namespace StudentBackend

/-- Payload of the first-party session JWT built in `sso_callback`:
`{'sub': ..., 'email': ..., 'exp': ...}`.  The `email` field is an
`Option` because `get_user_data` reads it with `payload.get('email')`,
which tolerates its absence (claim C10). -/
structure SessionPayload where
  sub : String
  email : Option String
  exp : Nat
  deriving Repr, DecidableEq

/-- Shallow model of a serialized JWT as received in the `sessionToken`
cookie: either a structurally well-formed token recording its payload and
the key that signed it, or a structurally corrupt blob. -/
inductive SessionToken where
  | signed (payload : SessionPayload) (key : String)
  | malformed (raw : String)
  deriving Repr, DecidableEq

/-- Model of `jwt.encode(payload, key, algorithm='HS256')`. -/
def jwt_encode (payload : SessionPayload) (key : String) : SessionToken :=
  .signed payload key

/-- Failure kinds of `jwt.decode`: `jwt.ExpiredSignatureError` and
`jwt.InvalidTokenError` (which covers `InvalidSignatureError` and
`DecodeError`). -/
inductive JwtError where
  | expired
  | invalid
  deriving Repr, DecidableEq

/-- Model of `jwt.decode(token, key, algorithms=['HS256'])` at time `now`.
PyJWT verifies the signature before validating the `exp` claim, so a
token signed with the wrong key raises `InvalidTokenError` even when it
is also expired; a well-signed token whose `exp` is in the past raises
`ExpiredSignatureError`. -/
def jwt_decode (tok : SessionToken) (key : String) (now : Nat) :
    Except JwtError SessionPayload :=
  match tok with
  | .malformed _ => .error .invalid
  | .signed p k =>
    if k ≠ key then .error .invalid
    else if p.exp < now then .error .expired
    else .ok p

/-- Python string interpolation of a value that may be `None`:
`f"Hello, {user_email}!"` renders `None` as the string `"None"`. -/
def pyStr : Option String → String
  | none => "None"
  | some s => s

/-- Response of the protected endpoint: HTTP status and the single
string field of the JSON body (`message` on 200, `error` otherwise). -/
structure UserDataResponse where
  status : Nat
  body : String
  deriving Repr, DecidableEq

/-- Model of `GET /api/user-data` (`get_user_data`): read the
`sessionToken` cookie, `jwt.decode` it with the app secret, and greet the
email claim; `ExpiredSignatureError` and `InvalidTokenError` map to the
two distinct 401 bodies of the source. -/
def get_user_data (cookie : Option SessionToken) (secret : String)
    (now : Nat) : UserDataResponse :=
  match cookie with
  | none => { status := 401, body := "Unauthorized" }
  | some tok =>
    match jwt_decode tok secret now with
    | .ok payload =>
        { status := 200
          body := "Hello, " ++ pyStr payload.email ++ "! This is protected data." }
    | .error .expired =>
        { status := 401, body := "Session expired, please log in again." }
    | .error .invalid =>
        { status := 401, body := "Invalid session token." }

/-- Claims dictionary returned by a successful
`descope_client.validate_jwt`.  Each claim is an `Option` because the
source reads `validated_token['sub']` and `validated_token['email']`
with bracket access (a `KeyError` if absent) and `name` with `.get`. -/
structure DescopeClaims where
  sub : Option String
  email : Option String
  name : Option String
  deriving Repr, DecidableEq

/-- An external (Descope) token as the SDK will judge it: either it
validates to a claims dictionary, or validation raises a
`DescopeException` carrying a detail message. -/
inductive DescopeToken where
  | valid (claims : DescopeClaims)
  | invalid (detail : String)
  deriving Repr, DecidableEq

/-- Model of `descope_client.validate_jwt`: the SDK verdict carried by
the token itself. -/
def validate_jwt : DescopeToken → Except String DescopeClaims
  | .valid c => .ok c
  | .invalid d => .error d

/-- Row of the `users` table created by `init_db`. -/
structure UserRecord where
  descope_user_id : String
  email : String
  name : Option String
  created_at : Nat
  last_login_at : Nat
  deriving Repr, DecidableEq

/-- The `users` table. -/
abbrev UsersTable := List UserRecord

/-- The primitive SQL statements `sso_callback` issues inside its
transaction, for reasoning about atomicity of the create-or-refresh
step (claim C3). -/
inductive DbOp where
  | selectUser (uid : String)
  | updateLastLogin (uid : String)
  | insertUser (uid : String) (email : String) (name : Option String)
  deriving Repr, DecidableEq

/-- The `SELECT`-then-(`UPDATE` or `INSERT`) transcript of the database
transaction in `sso_callback` (lines 113-130 of the source): it first
checks existence with a `SELECT`, then issues a separate `UPDATE` or
`INSERT` — a read-then-write pattern, not a native atomic upsert. -/
def loginDbOps (users : UsersTable) (uid email : String)
    (name : Option String) : List DbOp :=
  if users.any (fun r => r.descope_user_id == uid) then
    [.selectUser uid, .updateLastLogin uid]
  else
    [.selectUser uid, .insertUser uid email name]

/-- Net effect on the `users` table of the transaction in `sso_callback`
when it commits: if a row with the given `descope_user_id` exists, set
its `last_login_at` to `CURRENT_TIMESTAMP`; otherwise insert a new row
whose `created_at` and `last_login_at` default to `CURRENT_TIMESTAMP`. -/
def dbStep (users : UsersTable) (uid email : String)
    (name : Option String) (now : Nat) : UsersTable :=
  if users.any (fun r => r.descope_user_id == uid) then
    users.map (fun r =>
      if r.descope_user_id == uid then { r with last_login_at := now } else r)
  else
    users ++ [{ descope_user_id := uid, email := email, name := name,
                created_at := now, last_login_at := now }]

/-- Response of `POST /api/auth/descope-sso-callback`: HTTP status, the
optional `sessionToken` cookie, the `error` / `details` body fields of
the failure bodies, and the `users` table after the request. -/
structure SsoResponse where
  status : Nat
  cookie : Option SessionToken
  errorMsg : Option String
  details : Option String
  users : UsersTable
  deriving Repr, DecidableEq

/-- Model of `sso_callback`.  `clientReady` is whether `descope_client`
initialized; `body` is the `sessionToken` field of the request JSON
(`none` when absent or empty, since `if not descope_jwt` treats the
empty string as missing); `dbOk` is whether the database transaction
succeeds (on failure the source rolls back, so the table is returned
unchanged); `now` is the current time.  A claims dictionary lacking
`sub` or `email` raises `KeyError` at the bracket access, which the
trailing `except Exception` turns into a 500. -/
def sso_callback (clientReady : Bool) (body : Option DescopeToken)
    (dbOk : Bool) (users : UsersTable) (secret : String) (now : Nat) :
    SsoResponse :=
  if ¬clientReady then
    { status := 500, cookie := none,
      errorMsg := some "Descope client not initialized.", details := none,
      users := users }
  else
    match body with
    | none =>
      { status := 400, cookie := none,
        errorMsg := some "No session token provided.", details := none,
        users := users }
    | some tok =>
      match validate_jwt tok with
      | .error d =>
        { status := 401, cookie := none,
          errorMsg := some "Authentication failed", details := some d,
          users := users }
      | .ok claims =>
        match claims.sub, claims.email with
        | some uid, some user_email =>
          if ¬dbOk then
            { status := 500, cookie := none,
              errorMsg := some "Database operation failed.", details := none,
              users := users }
          else
            { status := 200
              cookie := some (jwt_encode
                { sub := uid, email := some user_email,
                  exp := now + 24 * 3600 } secret)
              errorMsg := none, details := none
              users := dbStep users uid user_email claims.name now }
        | _, _ =>
          { status := 500, cookie := none,
            errorMsg := some "An internal server error occurred.",
            details := none, users := users }

/-- Response of the CORS preflight handler: status, and the
`Access-Control-Allow-Origin` / `Access-Control-Allow-Credentials`
headers when set. -/
structure CorsResponse where
  status : Nat
  allowOrigin : Option String
  allowCredentials : Option String
  deriving Repr, DecidableEq

/-- Model of `handle_options_requests` for an OPTIONS request.
`frontendUrl` is the `FRONTEND_URL` configuration (the empty string
models an unset variable, falsy under `if FRONTEND_URL`); `origin` is
the request's declared Origin header — which the source never reads. -/
def handle_options_requests (frontendUrl : String) (_origin : String) :
    CorsResponse :=
  if frontendUrl ≠ "" then
    { status := 200, allowOrigin := some frontendUrl,
      allowCredentials := some "true" }
  else
    { status := 500, allowOrigin := none, allowCredentials := none }

/-- Modelled from the spec: the cached JWKS-equivalent of §3
(SigningKeySet) — the signing-key cache itself lives inside the Descope
SDK used by `descope_client.validate_jwt` and is not part of this
repository's sources.  A mapping from key identifier to public key
material plus a `fetchedAt` timestamp. -/
structure SigningKeySet where
  keys : List (String × String)
  fetchedAt : Nat
  deriving Repr, DecidableEq

/-- Modelled from the spec: the process-wide state of the Signing-Key
Cache of §4.1 — an optional cached set (created lazily on first
verification need). -/
structure KeyCacheState where
  cached : Option SigningKeySet
  deriving Repr, DecidableEq

/-- Outcome of one blocking fetch from the provider's key-distribution
endpoint, supplied as a parameter: the fetched key material, or a
network / malformed-response failure. -/
inductive FetchOutcome where
  | fetched (keys : List (String × String))
  | failed
  deriving Repr, DecidableEq

/-- Result of `getKeys`: a key set, or `KeyFetchError`. -/
inductive GetKeysResult where
  | keySet (s : SigningKeySet)
  | keyFetchError
  deriving Repr, DecidableEq

/-- Modelled from the spec: `getKeys() -> SigningKeySet |
Fails(KeyFetchError)` of §4.1.  If a cached set exists and
`now - fetchedAt` is within the freshness window, return it with no
fetch; on miss or staleness perform one blocking fetch (`fetch` is its
outcome), on success replace the cached set wholesale with the new
`fetchedAt`, on failure return the previous cache value when one exists,
otherwise fail with `KeyFetchError`.  Returns the result, the new cache
state, and the number of network fetches performed by this call. -/
def getKeys (freshness : Nat) (st : KeyCacheState) (now : Nat)
    (fetch : FetchOutcome) : GetKeysResult × KeyCacheState × Nat :=
  match st.cached with
  | some s =>
    if now - s.fetchedAt < freshness then
      (.keySet s, st, 0)
    else
      match fetch with
      | .fetched ks => (.keySet ⟨ks, now⟩, ⟨some ⟨ks, now⟩⟩, 1)
      | .failed => (.keySet s, st, 1)
  | none =>
    match fetch with
    | .fetched ks => (.keySet ⟨ks, now⟩, ⟨some ⟨ks, now⟩⟩, 1)
    | .failed => (.keyFetchError, st, 1)

/-- Distinctness of primary keys in the `users` table: the invariant the
`PRIMARY KEY` on `descope_user_id` (declared in `init_db`) maintains. -/
def keysUnique (users : UsersTable) : Prop :=
  users.Pairwise (fun a b => a.descope_user_id ≠ b.descope_user_id)

/-- One SQL statement applied to the table, enforcing the `PRIMARY KEY`
on `descope_user_id` declared by `init_db`: an `INSERT` whose key is
already present fails with a unique-violation error (its transaction
then rolls back). -/
def applyOp (now : Nat) (users : UsersTable) : DbOp → Except Unit UsersTable
  | .selectUser _ => .ok users
  | .updateLastLogin uid =>
    .ok (users.map (fun r =>
      if r.descope_user_id == uid then { r with last_login_at := now } else r))
  | .insertUser uid em nm =>
    if users.any (fun r => r.descope_user_id == uid) then .error ()
    else .ok (users ++ [{ descope_user_id := uid, email := em, name := nm,
                          created_at := now, last_login_at := now }])

/-- A sequence of SQL statements applied in order, stopping at the first
failure. -/
def applyOps (now : Nat) (users : UsersTable) : List DbOp → Except Unit UsersTable
  | [] => .ok users
  | op :: rest =>
    match applyOp now users op with
    | .ok next => applyOps now next rest
    | .error e => .error e

/-! ## Helper lemmas -/

/-- In a table with pairwise-distinct primary keys, a key that occurs at
all occurs in exactly one row. -/
theorem countP_key_eq_one_of_unique (users : UsersTable) (uid : String)
    (hu : keysUnique users)
    (h : users.any (fun r => r.descope_user_id == uid) = true) :
    users.countP (fun r => r.descope_user_id == uid) = 1 := by
  induction users with
  | nil => simp at h
  | cons r rest ih =>
    rw [keysUnique, List.pairwise_cons] at hu
    obtain ⟨hr, hrest⟩ := hu
    by_cases hid : r.descope_user_id = uid
    · have hz : rest.countP (fun s => s.descope_user_id == uid) = 0 := by
        rw [List.countP_eq_zero]
        intro b hb
        simp only [beq_iff_eq]
        intro hbe
        exact hr b hb (hid.trans hbe.symm)
      simp [List.countP_cons, hid, hz]
    · have hany : rest.any (fun s => s.descope_user_id == uid) = true := by
        simp only [List.any_cons, Bool.or_eq_true, beq_iff_eq] at h
        rcases h with h | h
        · exact absurd h hid
        · simpa using h
      simp [List.countP_cons, hid, ih hrest hany]

/-- The per-row update performed on the existing-user path of
`sso_callback` never changes the primary key. -/
theorem update_row_key (uid : String) (now : Nat) (r : UserRecord) :
    (if r.descope_user_id == uid then { r with last_login_at := now }
     else r).descope_user_id = r.descope_user_id := by
  split <;> rfl

/-- The existing-user update leaves the number of rows matching any key
predicate on `descope_user_id` unchanged. -/
theorem countP_update_key (users : UsersTable) (uid : String) (now : Nat) :
    (users.map (fun r =>
        if r.descope_user_id == uid then { r with last_login_at := now }
        else r)).countP (fun r => r.descope_user_id == uid)
      = users.countP (fun r => r.descope_user_id == uid) := by
  induction users with
  | nil => rfl
  | cons r rest ih =>
    simp only [List.map_cons, List.countP_cons, ih, update_row_key]

/-! ## Claims -/

/-- Claim C1: for a valid external token carrying subject `uid` and
email `em`, `sso_callback` issues a session cookie whose later
`jwt.decode` with the same secret (the decode `get_user_data` performs)
recovers exactly that subject and email. -/
theorem C1_session_round_trip (claims : DescopeClaims) (uid em : String)
    (hsub : claims.sub = some uid) (hem : claims.email = some em)
    (users : UsersTable) (secret : String) (now later : Nat)
    (hfresh : ¬ now + 24 * 3600 < later) :
    ∃ tok,
      (sso_callback true (some (.valid claims)) true users secret now).cookie
        = some tok ∧
      jwt_decode tok secret later =
        .ok { sub := uid, email := some em, exp := now + 24 * 3600 } := by
  refine ⟨jwt_encode { sub := uid, email := some em, exp := now + 24 * 3600 }
    secret, ?_, ?_⟩
  · simp [sso_callback, validate_jwt, hsub, hem]
  · simp [jwt_encode, jwt_decode, hfresh]

/-- Witness for C1 at subject `usr_123`, email `a@b.com`. -/
theorem C1_session_round_trip_witness :
    ∃ tok,
      (sso_callback true
          (some (.valid { sub := some "usr_123", email := some "a@b.com",
                          name := none }))
          true [] "app-secret" 1000).cookie = some tok ∧
      jwt_decode tok "app-secret" 5000 =
        .ok { sub := "usr_123", email := some "a@b.com", exp := 1000 + 24 * 3600 } :=
  C1_session_round_trip
    { sub := some "usr_123", email := some "a@b.com", name := none }
    "usr_123" "a@b.com" rfl rfl [] "app-secret" 1000 5000 (by decide)

/-- Claim C2 (counterexample): a session credential that is both expired
(`exp = 0` at `now = 10`) and signed with a wrong key fails with the
SessionInvalid body, not SessionExpired — refuting, as stated, that a
credential with expiry in the past never fails with SessionInvalid. -/
theorem C2_counterexample :
    (0 : Nat) < 10 ∧ "wrong-key" ≠ "app-secret" ∧
    get_user_data
        (some (.signed { sub := "u", email := some "e", exp := 0 } "wrong-key"))
        "app-secret" 10 =
      { status := 401, body := "Invalid session token." } := by
  refine ⟨by decide, by decide, by decide⟩

/-- Claim C2 (amended): a validly-signed credential whose expiry is in
the past fails with the SessionExpired body; a credential signed with a
key other than the server secret, or structurally corrupt, fails with
the SessionInvalid body — the signature check takes precedence over the
expiry check, and the two bodies are distinct. -/
theorem C2_expired_vs_tampered (p : SessionPayload) (secret k raw : String)
    (now : Nat) :
    (p.exp < now →
      get_user_data (some (.signed p secret)) secret now =
        { status := 401, body := "Session expired, please log in again." }) ∧
    (k ≠ secret →
      get_user_data (some (.signed p k)) secret now =
        { status := 401, body := "Invalid session token." }) ∧
    get_user_data (some (.malformed raw)) secret now =
      { status := 401, body := "Invalid session token." } := by
  refine ⟨fun h => ?_, fun h => ?_, ?_⟩
  · simp [get_user_data, jwt_decode, h]
  · simp [get_user_data, jwt_decode, h]
  · rfl

/-- Witness for C2 (amended) on concrete expired, tampered and
malformed credentials. -/
theorem C2_expired_vs_tampered_witness :
    get_user_data (some (.signed { sub := "u", email := some "e", exp := 3 } "s"))
        "s" 9 =
      { status := 401, body := "Session expired, please log in again." } ∧
    get_user_data (some (.signed { sub := "u", email := some "e", exp := 99 } "w"))
        "s" 9 =
      { status := 401, body := "Invalid session token." } ∧
    get_user_data (some (.malformed "garbage")) "s" 9 =
      { status := 401, body := "Invalid session token." } :=
  ⟨(C2_expired_vs_tampered { sub := "u", email := some "e", exp := 3 }
      "s" "w" "garbage" 9).1 (by decide),
   (C2_expired_vs_tampered { sub := "u", email := some "e", exp := 99 }
      "s" "w" "garbage" 9).2.1 (by decide),
   (C2_expired_vs_tampered { sub := "u", email := some "e", exp := 99 }
      "s" "w" "garbage" 9).2.2⟩

/-- Claim C10: a session token signed with the server secret and
unexpired but lacking the email claim is accepted by `get_user_data`,
which returns 200 and greets the missing email as the string "None". -/
theorem C10_missing_email_accepted (sub : String) (e now : Nat)
    (secret : String) (h : ¬ e < now) :
    get_user_data (some (.signed { sub := sub, email := none, exp := e } secret))
        secret now =
      { status := 200, body := "Hello, None! This is protected data." } := by
  simp [get_user_data, jwt_decode, pyStr, h]

/-- Witness for C10 at a concrete unexpired email-less token. -/
theorem C10_missing_email_accepted_witness :
    get_user_data (some (.signed { sub := "u7", email := none, exp := 100 } "s"))
        "s" 5 =
      { status := 200, body := "Hello, None! This is protected data." } :=
  C10_missing_email_accepted "u7" 100 5 "s" (by decide)

/-- Claim C3 (counterexample): the create-or-refresh step of
`sso_callback` issues two SQL statements — a `SELECT` followed by an
`INSERT` (or `UPDATE`) — so it is not a single atomic insert-or-update
operation. -/
theorem C3_counterexample :
    loginDbOps [] "usr_123" "a@b.com" none =
      [DbOp.selectUser "usr_123", DbOp.insertUser "usr_123" "a@b.com" none] ∧
    (loginDbOps [] "usr_123" "a@b.com" none).length ≠ 1 := by
  exact ⟨by decide, by decide⟩

/-- Claim C3 (amended): sequential logins preserve key-uniqueness and
leave exactly one row per subject, and under an interleaving of two
logins for a fresh subject the primary key rejects the second `INSERT`
(so no duplicate row is created, the racing login fails instead); but
the create-or-refresh step is a two-statement read-then-write, not a
single atomic operation. -/
theorem C3_one_record_per_subject (users : UsersTable) (uid em : String)
    (nm : Option String) (now : Nat) (hu : keysUnique users) :
    keysUnique (dbStep users uid em nm now) ∧
    (dbStep users uid em nm now).countP
      (fun r => r.descope_user_id == uid) = 1 ∧
    (loginDbOps users uid em nm).length = 2 ∧
    applyOps 5 []
        [DbOp.selectUser "u", DbOp.selectUser "u",
         DbOp.insertUser "u" "e" none] =
      .ok [{ descope_user_id := "u", email := "e", name := none,
             created_at := 5, last_login_at := 5 }] ∧
    applyOp 5 [{ descope_user_id := "u", email := "e", name := none,
                 created_at := 5, last_login_at := 5 }]
        (DbOp.insertUser "u" "e" none) = .error () := by
  have hlen : (loginDbOps users uid em nm).length = 2 := by
    unfold loginDbOps
    split <;> rfl
  by_cases h : users.any (fun r => r.descope_user_id == uid) = true
  · have hstep : dbStep users uid em nm now =
        users.map (fun r =>
          if r.descope_user_id == uid then { r with last_login_at := now }
          else r) := by
      simp [dbStep, h]
    refine ⟨?_, ?_, hlen, by rfl, by rfl⟩
    · rw [hstep, keysUnique, List.pairwise_map]
      refine hu.imp ?_
      intro a b hab
      rw [update_row_key uid now a, update_row_key uid now b]
      exact hab
    · rw [hstep, countP_update_key]
      exact countP_key_eq_one_of_unique users uid hu h
  · have hstep : dbStep users uid em nm now =
        users ++ [{ descope_user_id := uid, email := em, name := nm,
                    created_at := now, last_login_at := now }] := by
      simp [dbStep, h]
    refine ⟨?_, ?_, hlen, by rfl, by rfl⟩
    · rw [hstep, keysUnique, List.pairwise_append]
      refine ⟨hu, List.pairwise_singleton _ _, ?_⟩
      intro a ha b hb hcontra
      rw [List.mem_singleton] at hb
      subst hb
      have hak : a.descope_user_id = uid := hcontra
      exact h (List.any_eq_true.mpr ⟨a, ha, by simp [hak]⟩)
    · rw [hstep, List.countP_append]
      have h0 : users.countP (fun r => r.descope_user_id == uid) = 0 := by
        rw [List.countP_eq_zero]
        intro b hb hbe
        exact h (List.any_eq_true.mpr ⟨b, hb, hbe⟩)
      simp [h0, List.countP_cons]

/-- Witness for C3 (amended) on the empty table. -/
theorem C3_one_record_per_subject_witness :
    keysUnique (dbStep [] "usr_123" "a@b.com" none 7) ∧
    (dbStep [] "usr_123" "a@b.com" none 7).countP
      (fun r => r.descope_user_id == "usr_123") = 1 :=
  ⟨(C3_one_record_per_subject [] "usr_123" "a@b.com" none 7 List.Pairwise.nil).1,
   (C3_one_record_per_subject [] "usr_123" "a@b.com" none 7 List.Pairwise.nil).2.1⟩

/-- Claim C4: a login for a subject that already has a row updates only
that row's `last_login_at`: row count is unchanged and every row keeps
its `descope_user_id`, `email`, `name` and `created_at`; rows of other
subjects keep their `last_login_at` too, while the subject's row gets
`last_login_at = now`. -/
theorem C4_update_frame (claims : DescopeClaims) (uid em : String)
    (hsub : claims.sub = some uid) (hem : claims.email = some em)
    (users : UsersTable) (secret : String) (now : Nat)
    (hexists : users.any (fun r => r.descope_user_id == uid) = true) :
    ((sso_callback true (some (.valid claims)) true users secret now).users).length
      = users.length ∧
    List.Forall₂ (fun old new =>
        new.descope_user_id = old.descope_user_id ∧
        new.email = old.email ∧
        new.name = old.name ∧
        new.created_at = old.created_at ∧
        (old.descope_user_id ≠ uid → new.last_login_at = old.last_login_at) ∧
        (old.descope_user_id = uid → new.last_login_at = now))
      users (sso_callback true (some (.valid claims)) true users secret now).users := by
  have husers : (sso_callback true (some (.valid claims)) true users secret now).users
      = users.map (fun r =>
          if r.descope_user_id == uid then { r with last_login_at := now }
          else r) := by
    simp [sso_callback, validate_jwt, hsub, hem, dbStep, hexists]
  constructor
  · rw [husers, List.length_map]
  · rw [husers, List.forall₂_map_right_iff, List.forall₂_same]
    intro r hr
    by_cases hid : r.descope_user_id = uid
    · simp [hid]
    · simp [hid]

/-- Witness for C4 on a one-row table: the row count stays 1. -/
theorem C4_update_frame_witness :
    ((sso_callback true
        (some (.valid { sub := some "usr_123", email := some "a@b.com",
                        name := none }))
        true
        [{ descope_user_id := "usr_123", email := "a@b.com", name := some "Ada",
           created_at := 50, last_login_at := 50 }] "s" 99).users).length = 1 :=
  (C4_update_frame { sub := some "usr_123", email := some "a@b.com", name := none }
    "usr_123" "a@b.com" rfl rfl
    [{ descope_user_id := "usr_123", email := "a@b.com", name := some "Ada",
       created_at := 50, last_login_at := 50 }] "s" 99 (by decide)).1

/-- Claim C5 (counterexample): a token the SDK validates but whose
claims lack `email` makes `sso_callback` answer 500 (the `KeyError`
falls into the generic handler), not the 401 the claim requires for an
ill-formed email claim — and this 500 occurs with storage succeeding. -/
theorem C5_counterexample :
    (sso_callback true
        (some (.valid { sub := some "usr_123", email := none, name := none }))
        true [] "s" 0).status = 500 ∧
    (sso_callback true
        (some (.valid { sub := some "usr_123", email := none, name := none }))
        true [] "s" 0).status ≠ 401 := by
  exact ⟨by decide, by decide⟩

/-- Claim C5 (amended): missing token gives 400; a token the external
verifier rejects gives 401; with well-formed `sub` and `email` claims
the status is 500 on storage failure and 200 on storage success; but a
validated token missing `sub` or `email` gives 500 (uncaught lookup
error), and 500 is also returned when the Descope client is not
initialized. -/
theorem C5_status_codes (body : Option DescopeToken) (dbOk : Bool)
    (users : UsersTable) (secret : String) (now : Nat) :
    (sso_callback true none dbOk users secret now).status = 400 ∧
    (∀ d, (sso_callback true (some (.invalid d)) dbOk users secret now).status
      = 401) ∧
    (∀ claims : DescopeClaims, claims.sub = none ∨ claims.email = none →
      (sso_callback true (some (.valid claims)) dbOk users secret now).status
        = 500) ∧
    (∀ claims : DescopeClaims, ∀ uid em,
      claims.sub = some uid → claims.email = some em →
      (sso_callback true (some (.valid claims)) false users secret now).status
        = 500 ∧
      (sso_callback true (some (.valid claims)) true users secret now).status
        = 200) ∧
    (sso_callback false body dbOk users secret now).status = 500 := by
  refine ⟨?_, fun d => ?_, fun claims hc => ?_,
    fun claims uid em hs he => ⟨?_, ?_⟩, ?_⟩
  · simp [sso_callback]
  · simp [sso_callback, validate_jwt]
  · rcases hc with hc | hc
    · simp [sso_callback, validate_jwt, hc]
    · rcases hsub : claims.sub with _ | uid
      · simp [sso_callback, validate_jwt, hsub]
      · simp [sso_callback, validate_jwt, hsub, hc]
  · simp [sso_callback, validate_jwt, hs, he]
  · simp [sso_callback, validate_jwt, hs, he]
  · simp [sso_callback]

/-- Witness for C5 (amended): the email-less 500, the storage-failure
500 and the success 200 at concrete inputs. -/
theorem C5_status_codes_witness :
    (sso_callback true
        (some (.valid { sub := none, email := some "e", name := none }))
        true [] "s" 0).status = 500 ∧
    (sso_callback true
        (some (.valid { sub := some "u", email := some "e", name := none }))
        false [] "s" 0).status = 500 ∧
    (sso_callback true
        (some (.valid { sub := some "u", email := some "e", name := none }))
        true [] "s" 0).status = 200 :=
  ⟨(C5_status_codes none true [] "s" 0).2.2.1
      { sub := none, email := some "e", name := none } (Or.inl rfl),
   ((C5_status_codes none true [] "s" 0).2.2.2.1
      { sub := some "u", email := some "e", name := none } "u" "e" rfl rfl).1,
   ((C5_status_codes none true [] "s" 0).2.2.2.1
      { sub := some "u", email := some "e", name := none } "u" "e" rfl rfl).2⟩

/-- Claim C6: on every non-200 outcome of `sso_callback` no
`sessionToken` cookie is set and the `users` table is unchanged (the
failed transaction is rolled back, so no partial record persists). -/
theorem C6_no_cookie_on_failure (clientReady : Bool)
    (body : Option DescopeToken) (dbOk : Bool) (users : UsersTable)
    (secret : String) (now : Nat)
    (h : (sso_callback clientReady body dbOk users secret now).status ≠ 200) :
    (sso_callback clientReady body dbOk users secret now).cookie = none ∧
    (sso_callback clientReady body dbOk users secret now).users = users := by
  cases clientReady with
  | false => simp [sso_callback]
  | true =>
    cases body with
    | none => simp [sso_callback]
    | some tok =>
      cases tok with
      | invalid d => simp [sso_callback, validate_jwt]
      | valid claims =>
        obtain ⟨s, e, n⟩ := claims
        cases s with
        | none => simp [sso_callback, validate_jwt]
        | some uid =>
          cases e with
          | none => simp [sso_callback, validate_jwt]
          | some em =>
            cases dbOk with
            | false => simp [sso_callback, validate_jwt]
            | true =>
              exact absurd (by simp [sso_callback, validate_jwt]) h

/-- Witness for C6 at the missing-token 400 response. -/
theorem C6_no_cookie_on_failure_witness :
    (sso_callback true none true [] "s" 0).cookie = none ∧
    (sso_callback true none true [] "s" 0).users = ([] : UsersTable) :=
  C6_no_cookie_on_failure true none true [] "s" 0 (by decide)

/-- Claim C7 (counterexample): a preflight whose Origin
`https://evil.example` is not the allow-listed frontend origin is
answered 200 — not 403 — and the allow-origin header is still set (to
the configured frontend origin). -/
theorem C7_counterexample :
    "https://evil.example" ≠ "https://app.example" ∧
    (handle_options_requests "https://app.example" "https://evil.example").status
      = 200 ∧
    (handle_options_requests "https://app.example" "https://evil.example").status
      ≠ 403 ∧
    (handle_options_requests "https://app.example" "https://evil.example").allowOrigin
      = some "https://app.example" := by
  exact ⟨by decide, by decide, by decide, by decide⟩

/-- Claim C7 (amended): the preflight handler never inspects the
request's Origin: whenever `FRONTEND_URL` is configured it answers 200
with the allow-origin header set to that configured value and
credentials allowed, for every Origin; when `FRONTEND_URL` is unset it
answers 500 with no CORS headers.  No 403 refusal path exists. -/
theorem C7_preflight_ignores_origin (frontendUrl origin : String) :
    (frontendUrl ≠ "" →
      handle_options_requests frontendUrl origin =
        { status := 200, allowOrigin := some frontendUrl,
          allowCredentials := some "true" }) ∧
    (frontendUrl = "" →
      handle_options_requests frontendUrl origin =
        { status := 500, allowOrigin := none, allowCredentials := none }) := by
  refine ⟨fun h => ?_, fun h => ?_⟩ <;> simp [handle_options_requests, h]

/-- Witness for C7 (amended) at the evil-origin preflight. -/
theorem C7_preflight_ignores_origin_witness :
    handle_options_requests "https://app.example" "https://evil.example" =
      { status := 200, allowOrigin := some "https://app.example",
        allowCredentials := some "true" } :=
  (C7_preflight_ignores_origin "https://app.example" "https://evil.example").1
    (by decide)

/-- Claim C8 (counterexample): two invalid external tokens whose
verification failures carry different detail messages receive 401
responses with different bodies — the `details` field echoes the
verification-internal message, so the body is not a fixed generic
message. -/
theorem C8_counterexample :
    (sso_callback true (some (.invalid "token expired")) true [] "s" 0).status
      = 401 ∧
    (sso_callback true (some (.invalid "signature mismatch")) true [] "s" 0).status
      = 401 ∧
    (sso_callback true (some (.invalid "token expired")) true [] "s" 0).details
      ≠ (sso_callback true (some (.invalid "signature mismatch")) true [] "s" 0).details := by
  exact ⟨by decide, by decide, by decide⟩

/-- Claim C8 (amended): every failing external token gets status 401
with the fixed `error` field "Authentication failed", but the body also
carries a `details` field equal to the verification exception's message,
which varies with the failure cause. -/
theorem C8_failure_body (d : String) (dbOk : Bool) (users : UsersTable)
    (secret : String) (now : Nat) :
    (sso_callback true (some (.invalid d)) dbOk users secret now).status = 401 ∧
    (sso_callback true (some (.invalid d)) dbOk users secret now).errorMsg =
      some "Authentication failed" ∧
    (sso_callback true (some (.invalid d)) dbOk users secret now).details = some d := by
  refine ⟨?_, ?_, ?_⟩ <;> simp [sso_callback, validate_jwt]

/-- Claim C9: a `getKeys` call within the freshness window returns the
cached set with zero fetches and unchanged state; a call after the
window performs exactly one fetch, replacing the cached set wholesale on
success; on fetch failure with a previous cache present, the previous
cached value is returned. -/
theorem C9_key_cache_behaviour (freshness : Nat) (s : SigningKeySet)
    (now : Nat) (fetch : FetchOutcome) (ks : List (String × String)) :
    (now - s.fetchedAt < freshness →
      getKeys freshness ⟨some s⟩ now fetch = (.keySet s, ⟨some s⟩, 0)) ∧
    (¬ now - s.fetchedAt < freshness →
      (getKeys freshness ⟨some s⟩ now fetch).2.2 = 1 ∧
      getKeys freshness ⟨some s⟩ now (.fetched ks) =
        (.keySet ⟨ks, now⟩, ⟨some ⟨ks, now⟩⟩, 1) ∧
      getKeys freshness ⟨some s⟩ now .failed = (.keySet s, ⟨some s⟩, 1)) := by
  refine ⟨fun h => ?_, fun h => ⟨?_, ?_, ?_⟩⟩
  · simp [getKeys, h]
  · cases fetch <;> simp [getKeys, h]
  · simp [getKeys, h]
  · simp [getKeys, h]

/-- Witness for C9: a fresh hit, a stale successful refetch and a stale
failed fetch on concrete cache states. -/
theorem C9_key_cache_behaviour_witness :
    getKeys 3600 ⟨some ⟨[("kid1", "pk1")], 1000⟩⟩ 2000 .failed =
      (.keySet ⟨[("kid1", "pk1")], 1000⟩, ⟨some ⟨[("kid1", "pk1")], 1000⟩⟩, 0) ∧
    getKeys 3600 ⟨some ⟨[("kid1", "pk1")], 1000⟩⟩ 9000 (.fetched [("kid2", "pk2")]) =
      (.keySet ⟨[("kid2", "pk2")], 9000⟩, ⟨some ⟨[("kid2", "pk2")], 9000⟩⟩, 1) ∧
    getKeys 3600 ⟨some ⟨[("kid1", "pk1")], 1000⟩⟩ 9000 .failed =
      (.keySet ⟨[("kid1", "pk1")], 1000⟩, ⟨some ⟨[("kid1", "pk1")], 1000⟩⟩, 1) :=
  ⟨(C9_key_cache_behaviour 3600 ⟨[("kid1", "pk1")], 1000⟩ 2000 .failed
      [("kid2", "pk2")]).1 (by decide),
   ((C9_key_cache_behaviour 3600 ⟨[("kid1", "pk1")], 1000⟩ 9000 .failed
      [("kid2", "pk2")]).2 (by decide)).2.1,
   ((C9_key_cache_behaviour 3600 ⟨[("kid1", "pk1")], 1000⟩ 9000 .failed
      [("kid2", "pk2")]).2 (by decide)).2.2⟩

end StudentBackend
